import Mathlib

/-!
Verification of the checksum/identifier-code engine of grilo/createuser.

The Python sources `masking/locale/es/bankaccount.py` and
`masking/locale/es/pin.py` are shallowly embedded below: strings are
Lean `String`s (lists of characters), Python slices become list
operations, raised exceptions become `Except.error` values of the
`Err` type, and the values drawn from `random` become explicit
parameters constrained to the ranges the Python calls produce.
-/

set_option maxRecDepth 8192

/-- ASCII digit character for a value `d < 10`, as Python `str` prints one digit. -/
def digitChar (d : Nat) : Char := Char.ofNat (48 + d)

/-- Whether a character is an ASCII decimal digit (what Python `int()` accepts
in the strings this program feeds it). -/
def isDigitChar (c : Char) : Bool := 48 ≤ c.toNat && c.toNat ≤ 57

/-- Numeric value of an ASCII digit character. -/
def digitVal (c : Char) : Nat := c.toNat - 48

/-- Decimal digits of `n`, most significant first, with explicit fuel so the
recursion is structural.  With `fuel ≥ n` (or `n < 10`) this is the decimal
expansion Python `str` prints. -/
def natDigitsF : Nat → Nat → List Nat
  | 0, n => [n]
  | f + 1, n => if n < 10 then [n] else natDigitsF f (n / 10) ++ [n % 10]

/-- Decimal digits of `n`, most significant first. -/
def natDigits (n : Nat) : List Nat := natDigitsF n n

/-- Python `str(n)` for a non-negative integer. -/
def pyStr (n : Nat) : String := ⟨(natDigits n).map digitChar⟩

/-- Python `str.zfill(w)`: left-pad with `'0'` to width `w`. -/
def zfill (w : Nat) (s : String) : String :=
  ⟨List.replicate (w - s.data.length) '0' ++ s.data⟩

/-- Value of a digit string read left to right starting from accumulator `a`. -/
def foldVal (a : Nat) (l : List Char) : Nat :=
  l.foldl (fun x c => x * 10 + digitVal c) a

/-- Numeric value of an all-digit string. -/
def strVal (s : String) : Nat := foldVal 0 s.data

/-- Python `int(s)` on the strings this program builds: defined exactly on
non-empty all-digit strings, `none` models the `ValueError` raised otherwise. -/
def pyInt (s : String) : Option Nat :=
  if s.data.isEmpty || !s.data.all isDigitChar then none else some (strVal s)

/-- Python slice `s[a:b]` (with `a ≤ b`), character based. -/
def pySlice (s : String) (a b : Nat) : String := ⟨(s.data.drop a).take (b - a)⟩

/-- Python slice `s[a:]`. -/
def pyDrop (s : String) (a : Nat) : String := ⟨s.data.drop a⟩

/-- Python slice `s[:n]`. -/
def pyTake (s : String) (n : Nat) : String := ⟨s.data.take n⟩

/-- Python `str.upper()` (ASCII). -/
def pyUpper (s : String) : String := ⟨s.data.map Char.toUpper⟩

/-- The exceptions raised by `bankaccount.py` and `pin.py`, plus Python's own
`ValueError` (raised by `int()` / `list.index` on bad input) and
`UnboundLocalError` (reading a local variable that was never assigned). -/
inductive Err where
  | ibanInvalidLength
  | ibanInvalidCountry
  | ibanInvalidBankCode
  | ibanInvalidCheckDigit
  | bbanInvalidLength
  | bbanInvalidBankCode
  | bbanInvalidBankBranchCheckDigit
  | bbanInvalidAccountCheckDigit
  | invalidPin
  | valueError
  | unboundLocal
  deriving DecidableEq

instance {ε α : Type} [DecidableEq ε] [DecidableEq α] : DecidableEq (Except ε α) := fun a b =>
  match a, b with
  | .ok x, .ok y =>
    if h : x = y then isTrue (by rw [h]) else isFalse (by simp [h])
  | .ok _, .error _ => isFalse (by simp)
  | .error _, .ok _ => isFalse (by simp)
  | .error x, .error y =>
    if h : x = y then isTrue (by rw [h]) else isFalse (by simp [h])

/-- The list `letters` from `pin.py`: the 23-letter DNI check alphabet. -/
def letters : List Char :=
  ['T', 'R', 'W', 'A', 'G', 'M', 'Y', 'F', 'P', 'D', 'X', 'B',
   'N', 'J', 'Z', 'S', 'Q', 'V', 'H', 'L', 'C', 'K', 'E']

/-- The list `foreign` from `pin.py`: the NIE leading letters. -/
def foreign : List Char := ['X', 'Y', 'Z']

/-- Method `DNI.validate` from `pin.py`.  A length mismatch raises `InvalidPinError`
(modelled `.error .invalidPin`); `int()` on a non-digit body raises
`ValueError`.  `pin.replace(old, new)` on one-character strings replaces every
occurrence, which the `List.map` mirrors. -/
def DNI.validate (pin : String) : Except Err Bool :=
  if pin.data.length ≠ 9 then .error .invalidPin
  else
    let check_digit := pin.data.getD 8 ' '
    let pin8 := pyTake pin 8
    let first := pin8.data.getD 0 ' '
    let pin8 :=
      if first ∈ foreign then
        (⟨pin8.data.map (fun c => if c = first then digitChar (foreign.indexOf first) else c)⟩ : String)
      else pin8
    match pyInt pin8 with
    | none => .error .valueError
    | some n => .ok (check_digit == letters.getD (n % 23) ' ')

/-- Method `DNI.national` from `pin.py`; `r` models the value drawn by
`random.randint(0, 9999999)` (both bounds inclusive). -/
def DNI.national (r : Nat) : String :=
  let dni := zfill 8 (pyStr r)
  let check_digit := strVal dni % 23
  dni ++ (⟨[letters.getD check_digit ' ']⟩ : String)

/-- Method `DNI.foreign` from `pin.py`; `i` models `foreign.index(random.choice(foreign))`
(so `i < 3`) and `r` models `random.randint(0, 9999999)`. -/
def DNI.foreignGen (i r : Nat) : String :=
  let dni := zfill 7 (pyStr r)
  let numeric_nie := strVal (pyStr i ++ dni)
  let check_digit := numeric_nie % 23
  (⟨[foreign.getD i ' ']⟩ : String) ++ dni ++ (⟨[letters.getD check_digit ' ']⟩ : String)

/-- The keys of the BANKS table in bankaccount.py (the 4-digit bank codes).
Only membership of a bank code in the table is ever used by the validation
logic; the name and BIC values attached to each code are not. -/
def BANKS : List String :=
  ["0136", "0238", "0130", "0038", "0132", "0133", "0233", "0232",
   "0231", "0036", "0138", "0239", "0235", "0234", "2095", "2096",
   "3095", "2013", "3045", "0131", "1546", "1544", "1545", "1535",
   "3121", "3127", "1549", "0144", "2401", "1465", "1467", "3190",
   "1460", "1463", "0049", "0125", "0122", "0121", "0031", "3183",
   "0046", "0128", "1490", "1491", "1492", "1493", "1494", "3130",
   "1496", "1499", "3138", "3035", "2415", "2105", "2416", "2038",
   "0113", "0059", "0058", "0115", "0057", "3140", "1482", "1481",
   "1480", "1487", "1485", "1488", "3134", "3165", "3029", "3162",
   "3025", "3023", "3020", "1524", "1525", "2108", "3160", "0200",
   "1523", "0444", "1528", "1530", "0108", "3152", "3150", "3157",
   "9000", "3159", "0237", "3018", "2045", "2056", "3016", "3017",
   "2048", "1510", "0211", "1536", "0198", "3096", "1532", "1531",
   "0216", "0219", "0218", "0190", "0236", "1000", "3115", "3123",
   "1522", "3005", "3007", "3001", "3166", "2000", "3009", "3008",
   "3113", "2414", "0184", "3144", "0186", "0182", "0188", "1502",
   "1500", "0065", "3089", "1504", "0061", "3085", "1508", "1509",
   "3081", "3080", "0488", "2429", "0169", "0168", "0003", "2420",
   "0162", "0161", "0160", "0167", "2426", "0487", "3070", "0149",
   "3076", "3174", "3179", "0073", "1457", "0075", "1451", "3116",
   "2103", "0078", "2100", "1459", "1513", "2104", "2428", "3146",
   "0011", "1475", "2433", "2432", "2431", "2430", "0019", "3063",
   "3060", "3067", "3110", "1472", "3104", "3105", "1470", "3102",
   "1538", "3186", "3187", "1505", "2421", "0081", "0083", "0229",
   "3191", "0220", "2424", "0223", "0224", "0225", "0226", "0227",
   "3058", "3059", "1501", "2427", "2422", "3098", "3135", "1479",
   "3119", "3118", "3117", "0196", "2080", "2086", "3112", "3111",
   "2085", "0156", "1473", "0154", "0155", "0152", "1474", "0151",
   "0094", "0159"]

/-- The expression `map(int, list(s))` from the check-digit helpers: the digit values of the
characters of `s`, or `none` for the `ValueError` Python's `int` raises on a
non-digit character. -/
def digitsOf? (s : String) : Option (List Nat) :=
  if s.data.all isDigitChar then some (s.data.map digitVal) else none

/-- Method `BBAN._first_check_digit` from bankaccount.py: weighted sum of the digits
of bank+branch with weights [4, 8, 5, 10, 9, 7, 3, 6] (zip truncates), mod 11,
subtracted from 11, with 10 folded to 1 and 11 folded to 0. -/
def BBAN.firstCheckDigit (bank branch : String) : Except Err String :=
  match digitsOf? (bank ++ branch) with
  | none => .error .valueError
  | some concat =>
    let multi_seq := [4, 8, 5, 10, 9, 7, 3, 6]
    let multi_result := List.zipWith (· * ·) concat multi_seq
    let multi_sum := multi_result.sum
    let remainder := multi_sum % 11
    let digit := 11 - remainder
    let digit := if digit = 10 then 1 else if digit = 11 then 0 else digit
    .ok (pyStr digit)

/-- Method `BBAN._second_check_digit` from bankaccount.py: same scheme over the
account digits with weights [1, 2, 4, 8, 5, 10, 9, 7, 3, 6]. -/
def BBAN.secondCheckDigit (account : String) : Except Err String :=
  match digitsOf? account with
  | none => .error .valueError
  | some concat =>
    let multi_seq := [1, 2, 4, 8, 5, 10, 9, 7, 3, 6]
    let multi_result := List.zipWith (· * ·) concat multi_seq
    let multi_sum := multi_result.sum
    let remainder := multi_sum % 11
    let digit := 11 - remainder
    let digit := if digit = 10 then 1 else if digit = 11 then 0 else digit
    .ok (pyStr digit)

/-- Method `BBAN.validate` from bankaccount.py. -/
def BBAN.validate (number : String) : Except Err String :=
  if number.data.length ≠ 20 then .error .bbanInvalidLength
  else
    let bank := pySlice number 0 4
    let branch := pySlice number 4 8
    let first_check_digit := pySlice number 8 9
    let second_check_digit := pySlice number 9 10
    let account := pyDrop number 10
    if bank ∉ BANKS then .error .bbanInvalidBankCode
    else
      match BBAN.firstCheckDigit bank branch with
      | .error e => .error e
      | .ok real_first_check_digit =>
        if first_check_digit ≠ real_first_check_digit then .error .bbanInvalidBankBranchCheckDigit
        else
          match BBAN.secondCheckDigit account with
          | .error e => .error e
          | .ok real_second_check_digit =>
            if second_check_digit ≠ real_second_check_digit then .error .bbanInvalidAccountCheckDigit
            else .ok number

/-- Method `BBAN.generate` from bankaccount.py.  `account` is the optional explicit
account argument; `r` models the value drawn by `random.randrange(9999999999)`
when no account is supplied.  In the source, the assignments to `first_cd` and
`second_cd` sit inside the `if account is None:` block, so when an account IS
supplied the trailing `return BBAN(...)` reads the never-assigned local
`first_cd` and Python raises `UnboundLocalError`; the `.some` branch models
that.  `return BBAN(...)` runs `BBAN.__init__`, which validates the assembled
string, so the `.none` branch ends in `BBAN.validate`. -/
def BBAN.generate (bank branch : String) (account : Option String) (r : Nat) : Except Err String :=
  match account with
  | some _ => .error .unboundLocal
  | none =>
    let number := pyStr r
    let account := zfill 10 number
    match BBAN.firstCheckDigit bank branch with
    | .error e => .error e
    | .ok first_cd =>
      match BBAN.secondCheckDigit account with
      | .error e => .error e
      | .ok second_cd => BBAN.validate (bank ++ branch ++ first_cd ++ second_cd ++ account)

/-- The fields `BBAN.__init__` stores after a successful validation. -/
structure BBANFields where
  bank : String
  branch : String
  account : String
  deriving DecidableEq

/-- Constructor `BBAN.__init__` (i.e. `BBAN(number)`) from bankaccount.py: validate, then
store `number[0:4]`, `number[4:8]`, `number[10:]`. -/
def BBAN.construct (number : String) : Except Err BBANFields :=
  match BBAN.validate number with
  | .error e => .error e
  | .ok _ => .ok ⟨pySlice number 0 4, pySlice number 4 8, pyDrop number 10⟩

/-- One step of the letter-substitution loop in `IBAN._calc_check_digit`:
Python-2 `str.isalpha` is true exactly for ASCII letters, and
`string.ascii_uppercase.index(ch)` raises `ValueError` for a lowercase letter
(the list holds only uppercase).  An uppercase letter becomes the decimal
digits of its index plus 10; any other character is passed through unchanged. -/
def subChar (c : Char) : Except Err String :=
  if 65 ≤ c.toNat ∧ c.toNat ≤ 90 then .ok (pyStr (c.toNat - 65 + 10))
  else if 97 ≤ c.toNat ∧ c.toNat ≤ 122 then .error .valueError
  else .ok (⟨[c]⟩ : String)

/-- The whole substitution loop of `IBAN._calc_check_digit`, building
`new_number`. -/
def substAll : List Char → Except Err String
  | [] => .ok ""
  | c :: cs =>
    match subChar c with
    | .error e => .error e
    | .ok s =>
      match substAll cs with
      | .error e => .error e
      | .ok t => .ok (s ++ t)

/-- Method `IBAN._calc_check_digit` from bankaccount.py.  Note that step 1 of the
source takes `number[4:8]` — only the four bank-code characters — not the whole
BBAN; the country code (characters 0-2) plus `"00"` is then appended, letters
are substituted, and the result is `str(98 - int(new_number) % 97).zfill(2)`. -/
def IBAN.calcCheckDigit (number : String) : Except Err String :=
  let bban := pySlice number 4 8
  let country := pySlice number 0 2 ++ "00"
  let bban := bban ++ country
  match substAll bban.data with
  | .error e => .error e
  | .ok new_number =>
    match pyInt new_number with
    | none => .error .valueError
    | some n => .ok (zfill 2 (pyStr (98 - n % 97)))

/-- Method `IBAN.validate` from bankaccount.py.  The country comparison uppercases the
input first; an error raised while computing the real check digit (`ValueError`
from a lowercase letter or a stray non-digit) propagates. -/
def IBAN.validate (number : String) : Except Err String :=
  if number.data.length ≠ 24 then .error .ibanInvalidLength
  else
    let country := pySlice number 0 2
    let check_digit := pySlice number 2 4
    let bank := pySlice number 4 8
    if pyUpper country ≠ "ES" then .error .ibanInvalidCountry
    else
      match IBAN.calcCheckDigit number with
      | .error e => .error e
      | .ok real_check_digit =>
        if check_digit ≠ real_check_digit then .error .ibanInvalidCheckDigit
        else if bank ∉ BANKS then .error .ibanInvalidBankCode
        else .ok number

/-- The fields `IBAN.__init__` stores. -/
structure IBANFields where
  country : String
  bban : BBANFields
  deriving DecidableEq

/-- Constructor `IBAN.__init__` (i.e. `IBAN(number)`) from bankaccount.py: run
`IBAN.validate(number)`, then build `BBAN(number[4:])`, whose own constructor
runs `BBAN.validate` on the trailing 20 characters. -/
def IBAN.construct (number : String) : Except Err IBANFields :=
  match IBAN.validate number with
  | .error e => .error e
  | .ok _ =>
    match BBAN.construct (pyDrop number 4) with
    | .error e => .error e
    | .ok b => .ok ⟨pySlice number 0 2, b⟩

/-- Method `IBAN.generate` from bankaccount.py: build the BBAN (note the explicit
`account` argument is passed straight through to `BBAN.generate`), read its
`.number` property (which re-validates), compute the check digit over
`"ES" + "00" + bban`, and construct the IBAN. -/
def IBAN.generate (bank branch : String) (account : Option String) (r : Nat) : Except Err IBANFields :=
  match BBAN.generate bank branch account r with
  | .error e => .error e
  | .ok bban =>
    let country := "ES"
    match IBAN.calcCheckDigit (country ++ "00" ++ bban) with
    | .error e => .error e
    | .ok check_digit => IBAN.construct (country ++ check_digit ++ bban)

/-- Modelled from the spec, for comparison with `IBAN.calcCheckDigit` (claim
C1): the ISO mod-97 check digit of a 24-character candidate — move the country
code and the `"00"` placeholder to the end (so the full 20-character BBAN comes
first), replace each letter by its numeric equivalent (A=10 … Z=35) written in
decimal, read the digit string as an integer `N`, and return `98 - N % 97`
zero-padded to two digits. -/
def specIsoCheckDigit (candidate : String) : String :=
  let rearranged := pyDrop candidate 4 ++ pySlice candidate 0 2 ++ "00"
  let substituted :=
    rearranged.data.foldl
      (fun acc c =>
        if 65 ≤ c.toNat ∧ c.toNat ≤ 90 then acc ++ (pyStr (c.toNat - 65 + 10)).data
        else acc ++ [c])
      []
  zfill 2 (pyStr (98 - foldVal 0 substituted % 97))

/-- The weighted digit sum at the heart of both BBAN check digits: digits of
`s` times the given weight vector (zip truncates), summed. -/
def weightedSum (weights : List Nat) (s : String) : Nat :=
  (List.zipWith (· * ·) (s.data.map digitVal) weights).sum

/-! Arithmetic facts about the decimal-digit primitives. -/

theorem digitVal_digitChar {d : Nat} (h : d < 10) : digitVal (digitChar d) = d := by
  interval_cases d <;> rfl

theorem isDigitChar_digitChar {d : Nat} (h : d < 10) : isDigitChar (digitChar d) = true := by
  interval_cases d <;> rfl

theorem natDigitsF_lt10 : ∀ f n, (n ≤ f ∨ n < 10) → ∀ d ∈ natDigitsF f n, d < 10 := by
  intro f
  induction f with
  | zero =>
    intro n hn d hd
    have hn' : n < 10 := by omega
    simp only [natDigitsF, List.mem_singleton] at hd
    omega
  | succ f ih =>
    intro n hn d hd
    by_cases h10 : n < 10
    · simp only [natDigitsF, if_pos h10, List.mem_singleton] at hd
      omega
    · simp only [natDigitsF, if_neg h10, List.mem_append, List.mem_singleton] at hd
      rcases hd with hd | hd
      · exact ih (n / 10) (Or.inl (by omega)) d hd
      · omega

theorem natDigitsF_foldVal :
    ∀ f n, (n ≤ f ∨ n < 10) → foldVal 0 ((natDigitsF f n).map digitChar) = n := by
  intro f
  induction f with
  | zero =>
    intro n hn
    have hn' : n < 10 := by omega
    simp [natDigitsF, foldVal, digitVal_digitChar hn']
  | succ f ih =>
    intro n hn
    by_cases h10 : n < 10
    · simp [natDigitsF, if_pos h10, foldVal, digitVal_digitChar h10]
    · have hrec : foldVal 0 ((natDigitsF f (n / 10)).map digitChar) = n / 10 :=
        ih (n / 10) (Or.inl (by omega))
      have hmod : n % 10 < 10 := Nat.mod_lt _ (by omega)
      simp only [natDigitsF, if_neg h10, List.map_append]
      unfold foldVal
      rw [List.foldl_append]
      show foldVal (foldVal 0 ((natDigitsF f (n / 10)).map digitChar)) [digitChar (n % 10)] = n
      rw [hrec]
      simp [foldVal, digitVal_digitChar hmod]
      omega

theorem natDigitsF_length :
    ∀ f n k, 0 < k → n < 10 ^ k → (natDigitsF f n).length ≤ k := by
  intro f
  induction f with
  | zero =>
    intro n k hk _
    simp [natDigitsF]
    omega
  | succ f ih =>
    intro n k hk hnk
    by_cases h10 : n < 10
    · simp [natDigitsF, if_pos h10]
      omega
    · obtain ⟨m, rfl⟩ : ∃ m, k = m + 1 := ⟨k - 1, by omega⟩
      have hm : 0 < m := by
        by_contra hm0
        have : m = 0 := by omega
        subst this
        simp at hnk
        omega
      have hdiv : n / 10 < 10 ^ m := by
        rw [Nat.div_lt_iff_lt_mul (by omega)]
        calc n < 10 ^ (m + 1) := hnk
        _ = 10 ^ m * 10 := by ring
      have := ih (n / 10) m hm hdiv
      simp [natDigitsF, if_neg h10]
      omega

theorem natDigits_lt10 (n : Nat) : ∀ d ∈ natDigits n, d < 10 :=
  natDigitsF_lt10 n n (Or.inl le_rfl)

theorem pyStr_val (n : Nat) : strVal (pyStr n) = n :=
  natDigitsF_foldVal n n (Or.inl le_rfl)

theorem pyStr_digits (n : Nat) : (pyStr n).data.all isDigitChar = true := by
  rw [List.all_eq_true]
  intro c hc
  simp only [pyStr, List.mem_map] at hc
  obtain ⟨d, hd, rfl⟩ := hc
  exact isDigitChar_digitChar (natDigits_lt10 n d hd)

theorem pyStr_length_le {n k : Nat} (hk : 0 < k) (h : n < 10 ^ k) :
    (pyStr n).data.length ≤ k := by
  simpa [pyStr] using natDigitsF_length n n k hk h

theorem pyStr_ne_nil (n : Nat) : (pyStr n).data ≠ [] := by
  have : (natDigits n).length ≤ 0 → False := by
    unfold natDigits
    cases hf : natDigitsF n n with
    | nil =>
      intro _
      revert hf
      unfold natDigitsF
      cases n with
      | zero => simp
      | succ m =>
        by_cases h10 : m + 1 < 10 <;> simp [h10]
    | cons a l => simp
  simp only [pyStr, ne_eq]
  intro hcon
  exact this (by simp [List.eq_nil_of_map_eq_nil hcon])

theorem foldVal_append (a : Nat) (l₁ l₂ : List Char) :
    foldVal a (l₁ ++ l₂) = foldVal (foldVal a l₁) l₂ := by
  simp [foldVal, List.foldl_append]

theorem foldVal_replicate_zero (a k : Nat) :
    foldVal a (List.replicate k '0') = a * 10 ^ k := by
  induction k generalizing a with
  | zero => simp [foldVal]
  | succ k ih =>
    rw [List.replicate_succ]
    show foldVal (a * 10 + digitVal '0') (List.replicate k '0') = a * 10 ^ (k + 1)
    rw [ih]
    have : digitVal '0' = 0 := rfl
    rw [this]
    ring

theorem foldVal_shift (l : List Char) :
    ∀ a, foldVal a l = a * 10 ^ l.length + foldVal 0 l := by
  induction l with
  | nil => intro a; simp [foldVal]
  | cons c t ih =>
    intro a
    show foldVal (a * 10 + digitVal c) t = a * 10 ^ (t.length + 1) + foldVal (0 * 10 + digitVal c) t
    rw [ih (a * 10 + digitVal c), ih (0 * 10 + digitVal c)]
    ring

theorem strVal_zfill (w : Nat) (s : String) : strVal (zfill w s) = strVal s := by
  unfold strVal zfill
  show foldVal 0 (List.replicate (w - s.data.length) '0' ++ s.data) = foldVal 0 s.data
  rw [foldVal_append, foldVal_replicate_zero]
  simp

theorem str_length (s : String) : s.length = s.data.length := by
  cases s
  rfl

theorem strData_append (a b : String) : (a ++ b).data = a.data ++ b.data := rfl

theorem all_replicate_zero (k : Nat) : (List.replicate k '0').all isDigitChar = true := by
  simp only [List.all_eq_true, List.mem_replicate]
  intro c hc
  rw [hc.2]
  rfl

theorem zfill_all_digits {s : String} (w : Nat) (h : s.data.all isDigitChar = true) :
    (zfill w s).data.all isDigitChar = true := by
  simp only [zfill, List.all_append, all_replicate_zero, h, Bool.and_self]

theorem zfill_length_of_le {s : String} {w : Nat} (h : s.data.length ≤ w) :
    (zfill w s).data.length = w := by
  simp only [zfill, List.length_append, List.length_replicate]
  omega

theorem zfill_head {s : String} {w : Nat} (h : s.data.length < w) :
    ∃ t, (zfill w s).data = '0' :: t := by
  obtain ⟨m, hm⟩ : ∃ m, w - s.data.length = m + 1 := ⟨w - s.data.length - 1, by omega⟩
  refine ⟨List.replicate m '0' ++ s.data, ?_⟩
  simp only [zfill]
  rw [hm, List.replicate_succ, List.cons_append]

/-- C2: the claim says `BBAN.generate(bank, branch, account)` succeeds for every
registry bank and every account number in range; in the code the assignments to
`first_cd`/`second_cd` sit inside the `if account is None:` block, so the call
with an explicitly supplied account reads an unassigned local and raises
`UnboundLocalError`.  Evaluated at bank "1465", branch "0000",
account "0000000001". -/
theorem C2_generate_unbound_local :
    BBAN.generate "1465" "0000" (some "0000000001") 0 = .error .unboundLocal := rfl

/-- C4 counterexample: on the 8-character input "12345678" the validator raises
`InvalidPinError` — it does not return the boolean false as the claim states. -/
theorem C4_counterexample :
    DNI.validate "12345678" = .error .invalidPin ∧ DNI.validate "12345678" ≠ .ok false := by
  exact ⟨rfl, by decide⟩

/-- C4 amended: for every input whose length differs from 9, NationalID
validation raises `InvalidPinError` (a typed failure); it never returns false
for a length mismatch. -/
theorem C4_length_raises (s : String) (h : s.length ≠ 9) :
    DNI.validate s = .error .invalidPin := by
  rw [str_length] at h
  unfold DNI.validate
  rw [if_pos h]

theorem C4_witness : DNI.validate "" = .error .invalidPin :=
  C4_length_raises "" (by decide)

/-- C5: the DNI generator draws `random.randint(0, 9999999)` — a 7-digit range,
not the claimed `[0, 99999999]` — and zero-pads to 8 digits, so for every
possible draw the emitted numeric body begins with the digit '0'; bodies with a
non-zero first digit (e.g. "10000000") can never be produced. -/
theorem C5_first_digit_always_zero (r : Nat) (h : r ≤ 9999999) :
    (DNI.national r).data.head? = some '0' := by
  have hplen : (pyStr r).data.length ≤ 7 := pyStr_length_le (by norm_num) (by omega)
  obtain ⟨t, ht⟩ := zfill_head (s := pyStr r) (w := 8) (by omega)
  show ((zfill 8 (pyStr r)) ++ (⟨[letters.getD (strVal (zfill 8 (pyStr r)) % 23) ' ']⟩ : String)).data.head? = some '0'
  rw [strData_append, ht]
  rfl

theorem C5_witness : (DNI.national 1234567).data.head? = some '0' :=
  C5_first_digit_always_zero 1234567 (by norm_num)

theorem strMk_data (l : List Char) : (⟨l⟩ : String).data = l := rfl

theorem national_validates (r : Nat) (hr : r ≤ 9999999) :
    DNI.validate (DNI.national r) = .ok true := by
  have hplen : (pyStr r).data.length ≤ 7 := pyStr_length_le (by norm_num) (by omega)
  obtain ⟨t, ht⟩ := zfill_head (s := pyStr r) (w := 8) (by omega)
  have hblen : (zfill 8 (pyStr r)).data.length = 8 := zfill_length_of_le (by omega)
  have hbdig : (zfill 8 (pyStr r)).data.all isDigitChar = true :=
    zfill_all_digits 8 (pyStr_digits r)
  have hpin : DNI.national r =
      (⟨(zfill 8 (pyStr r)).data ++ [letters.getD (strVal (zfill 8 (pyStr r)) % 23) ' ']⟩ : String) := rfl
  rw [hpin]
  unfold DNI.validate
  rw [strMk_data]
  have hlen9 : ¬((zfill 8 (pyStr r)).data ++
      [letters.getD (strVal (zfill 8 (pyStr r)) % 23) ' ']).length ≠ 9 := by
    simp [List.length_append, hblen]
  rw [if_neg hlen9]
  have htake : pyTake (⟨(zfill 8 (pyStr r)).data ++
      [letters.getD (strVal (zfill 8 (pyStr r)) % 23) ' ']⟩ : String) 8 = zfill 8 (pyStr r) := by
    show (⟨((zfill 8 (pyStr r)).data ++
      [letters.getD (strVal (zfill 8 (pyStr r)) % 23) ' ']).take 8⟩ : String) = zfill 8 (pyStr r)
    rw [List.take_left' hblen]
  have hfirst : (zfill 8 (pyStr r)).data.getD 0 ' ' = '0' := by
    rw [ht]
    rfl
  have hint : pyInt (zfill 8 (pyStr r)) = some (strVal (zfill 8 (pyStr r))) := by
    unfold pyInt
    rw [if_neg]
    simp only [Bool.or_eq_true, not_or, Bool.not_eq_true]
    constructor
    · rw [ht]
      rfl
    · simp [hbdig]
  have hgd : ((zfill 8 (pyStr r)).data ++
      [letters.getD (strVal (zfill 8 (pyStr r)) % 23) ' ']).getD 8 ' ' =
      letters.getD (strVal (zfill 8 (pyStr r)) % 23) ' ' := by
    rw [List.getD_append_right _ _ _ _ (by omega), hblen]
    rfl
  simp only [htake, hfirst, hgd]
  rw [if_neg (show ¬('0' ∈ foreign) by decide)]
  rw [hint]
  simp

theorem map_digits_noop {F g : Char} (hF : isDigitChar F = false) :
    ∀ l : List Char, l.all isDigitChar = true →
      l.map (fun c => if c = F then g else c) = l := by
  intro l
  induction l with
  | nil => intro _; rfl
  | cons c t ih =>
    intro hall
    simp only [List.all_cons, Bool.and_eq_true] at hall
    have hcF : c ≠ F := by
      intro hc
      rw [hc, hF] at hall
      exact Bool.false_ne_true hall.1
    simp only [List.map_cons, if_neg hcF, ih hall.2]

theorem foreign_validates (i r : Nat) (hi : i < 3) (hr : r ≤ 9999999) :
    DNI.validate (DNI.foreignGen i r) = .ok true := by
  have hplen : (pyStr r).data.length ≤ 7 := pyStr_length_le (by norm_num) (by omega)
  have hdlen : (zfill 7 (pyStr r)).data.length = 7 := zfill_length_of_le (by omega)
  have hddig : (zfill 7 (pyStr r)).data.all isDigitChar = true :=
    zfill_all_digits 7 (pyStr_digits r)
  have hFdig : isDigitChar (foreign.getD i ' ') = false := by
    interval_cases i <;> rfl
  have hFmem : foreign.getD i ' ' ∈ foreign := by
    interval_cases i <;> decide
  have hFidx : foreign.indexOf (foreign.getD i ' ') = i := by
    interval_cases i <;> rfl
  have hi10 : i < 10 := by omega
  have hpin : DNI.foreignGen i r =
      (⟨foreign.getD i ' ' :: ((zfill 7 (pyStr r)).data ++
        [letters.getD (strVal (pyStr i ++ zfill 7 (pyStr r)) % 23) ' '])⟩ : String) := rfl
  rw [hpin]
  unfold DNI.validate
  rw [strMk_data]
  have hlen9 : ¬(foreign.getD i ' ' :: ((zfill 7 (pyStr r)).data ++
      [letters.getD (strVal (pyStr i ++ zfill 7 (pyStr r)) % 23) ' '])).length ≠ 9 := by
    simp [List.length_append, hdlen]
  rw [if_neg hlen9]
  have htake : pyTake (⟨foreign.getD i ' ' :: ((zfill 7 (pyStr r)).data ++
      [letters.getD (strVal (pyStr i ++ zfill 7 (pyStr r)) % 23) ' '])⟩ : String) 8 =
      (⟨foreign.getD i ' ' :: (zfill 7 (pyStr r)).data⟩ : String) := by
    show (⟨(foreign.getD i ' ' :: ((zfill 7 (pyStr r)).data ++
      [letters.getD (strVal (pyStr i ++ zfill 7 (pyStr r)) % 23) ' '])).take 8⟩ : String) = _
    rw [List.take_succ_cons, List.take_left' hdlen]
  have hgd : (foreign.getD i ' ' :: ((zfill 7 (pyStr r)).data ++
      [letters.getD (strVal (pyStr i ++ zfill 7 (pyStr r)) % 23) ' '])).getD 8 ' ' =
      letters.getD (strVal (pyStr i ++ zfill 7 (pyStr r)) % 23) ' ' := by
    rw [List.getD_cons_succ, List.getD_append_right _ _ _ _ (by omega), hdlen]
    rfl
  simp only [htake, hgd, strMk_data, List.getD_cons_zero]
  rw [if_pos hFmem, hFidx]
  have hmap : (foreign.getD i ' ' :: (zfill 7 (pyStr r)).data).map
      (fun c => if c = foreign.getD i ' ' then digitChar i else c) =
      digitChar i :: (zfill 7 (pyStr r)).data := by
    rw [List.map_cons, if_pos rfl, map_digits_noop hFdig _ hddig]
  rw [hmap]
  have hint : pyInt (⟨digitChar i :: (zfill 7 (pyStr r)).data⟩ : String) =
      some (strVal (pyStr i ++ zfill 7 (pyStr r))) := by
    unfold pyInt
    rw [if_neg]
    · show some (foldVal 0 (digitChar i :: (zfill 7 (pyStr r)).data)) = _
      have hL : foldVal 0 (digitChar i :: (zfill 7 (pyStr r)).data) =
          foldVal (digitVal (digitChar i)) (zfill 7 (pyStr r)).data := by
        show foldVal (0 * 10 + digitVal (digitChar i)) (zfill 7 (pyStr r)).data = _
        rw [Nat.zero_mul, Nat.zero_add]
      have hR : strVal (pyStr i ++ zfill 7 (pyStr r)) =
          foldVal (strVal (pyStr i)) (zfill 7 (pyStr r)).data := by
        show foldVal 0 ((pyStr i ++ zfill 7 (pyStr r)).data) = _
        rw [strData_append, foldVal_append]
        rfl
      rw [hL, hR, digitVal_digitChar hi10, pyStr_val]
    · simp only [Bool.or_eq_true, not_or, Bool.not_eq_true]
      constructor
      · simp
      · simp [List.all_cons, isDigitChar_digitChar hi10, hddig]
  rw [hint]
  simp

theorem digitsOf?_of_digits {s : String} (h : s.data.all isDigitChar = true) :
    digitsOf? s = some (s.data.map digitVal) := by
  unfold digitsOf?
  rw [if_pos h]

theorem firstCheckDigit_rem (bank branch : String)
    (h : (bank ++ branch).data.all isDigitChar = true) :
    BBAN.firstCheckDigit bank branch =
      .ok (pyStr
        (if 11 - weightedSum [4, 8, 5, 10, 9, 7, 3, 6] (bank ++ branch) % 11 = 10 then 1
         else if 11 - weightedSum [4, 8, 5, 10, 9, 7, 3, 6] (bank ++ branch) % 11 = 11 then 0
         else 11 - weightedSum [4, 8, 5, 10, 9, 7, 3, 6] (bank ++ branch) % 11)) := by
  unfold BBAN.firstCheckDigit
  rw [digitsOf?_of_digits h]
  rfl

theorem secondCheckDigit_rem (account : String)
    (h : account.data.all isDigitChar = true) :
    BBAN.secondCheckDigit account =
      .ok (pyStr
        (if 11 - weightedSum [1, 2, 4, 8, 5, 10, 9, 7, 3, 6] account % 11 = 10 then 1
         else if 11 - weightedSum [1, 2, 4, 8, 5, 10, 9, 7, 3, 6] account % 11 = 11 then 0
         else 11 - weightedSum [1, 2, 4, 8, 5, 10, 9, 7, 3, 6] account % 11)) := by
  unfold BBAN.secondCheckDigit
  rw [digitsOf?_of_digits h]
  rfl

/-- C7: for both BBAN check-digit functions, an input whose weighted sum is
0 mod 11 yields check digit "0" (the 11 - 0 = 11 case is folded to 0, not
printed as "11"), and an input whose weighted sum is 1 mod 11 yields "1"
(the 11 - 1 = 10 case is folded to 1, not printed as "10"). -/
theorem C7_modulus_edge_cases (b1 br1 b2 br2 a1 a2 : String)
    (hd1 : (b1 ++ br1).data.all isDigitChar = true)
    (hd2 : (b2 ++ br2).data.all isDigitChar = true)
    (hd3 : a1.data.all isDigitChar = true)
    (hd4 : a2.data.all isDigitChar = true)
    (h0 : weightedSum [4, 8, 5, 10, 9, 7, 3, 6] (b1 ++ br1) % 11 = 0)
    (h1 : weightedSum [4, 8, 5, 10, 9, 7, 3, 6] (b2 ++ br2) % 11 = 1)
    (h0a : weightedSum [1, 2, 4, 8, 5, 10, 9, 7, 3, 6] a1 % 11 = 0)
    (h1a : weightedSum [1, 2, 4, 8, 5, 10, 9, 7, 3, 6] a2 % 11 = 1) :
    BBAN.firstCheckDigit b1 br1 = .ok "0" ∧
    BBAN.firstCheckDigit b2 br2 = .ok "1" ∧
    BBAN.secondCheckDigit a1 = .ok "0" ∧
    BBAN.secondCheckDigit a2 = .ok "1" := by
  refine ⟨?_, ?_, ?_, ?_⟩
  · rw [firstCheckDigit_rem _ _ hd1, h0]
    rfl
  · rw [firstCheckDigit_rem _ _ hd2, h1]
    rfl
  · rw [secondCheckDigit_rem _ hd3, h0a]
    rfl
  · rw [secondCheckDigit_rem _ hd4, h1a]
    rfl

theorem C7_witness :
    BBAN.firstCheckDigit "0000" "0000" = .ok "0" ∧
    BBAN.firstCheckDigit "0000" "0002" = .ok "1" ∧
    BBAN.secondCheckDigit "0000000000" = .ok "0" ∧
    BBAN.secondCheckDigit "0000000002" = .ok "1" :=
  C7_modulus_edge_cases "0000" "0000" "0000" "0002" "0000000000" "0000000002"
    (by decide) (by decide) (by decide) (by decide)
    (by decide) (by decide) (by decide) (by decide)

/-- C9: every code the generator can emit — National over every draw of
`random.randint(0, 9999999)`, Foreign over every prefix-letter choice and
every draw — passes `DNI.validate`: the emitted check letter is exactly the
23-letter alphabet entry indexed by the code's numeric value mod 23, which is
what `validate` recomputes. -/
theorem C9_generated_codes_validate (r i rf : Nat)
    (hr : r ≤ 9999999) (hi : i < 3) (hrf : rf ≤ 9999999) :
    DNI.validate (DNI.national r) = .ok true ∧
    DNI.validate (DNI.foreignGen i rf) = .ok true :=
  ⟨national_validates r hr, foreign_validates i rf hi hrf⟩

theorem C9_witness :
    DNI.validate (DNI.national 1234567) = .ok true ∧
    DNI.validate (DNI.foreignGen 2 7654321) = .ok true :=
  C9_generated_codes_validate 1234567 2 7654321 (by norm_num) (by norm_num) (by norm_num)

theorem banks_all_digits : ∀ b ∈ BANKS, b.data.all isDigitChar = true := by
  decide

/-- C6 counterexample: a 20-character input whose bank code is registered but
whose branch field contains letters makes the check-digit recomputation raise
an untyped `ValueError` (from `int()` inside `_first_check_digit`), not the
branch-check-digit error the claim promises for every such input. -/
theorem C6_counterexample :
    ("1465XYZW000000000000" : String).length = 20 ∧
    pySlice "1465XYZW000000000000" 0 4 ∈ BANKS ∧
    BBAN.validate "1465XYZW000000000000" = .error .valueError ∧
    BBAN.validate "1465XYZW000000000000" ≠ .error .bbanInvalidBankBranchCheckDigit := by
  decide

/-- C6 amended: `BBAN.validate` fails with the length error unless the length
is exactly 20; otherwise with the unknown-bank error unless the 4-digit bank
code is registered; otherwise, when the branch and account fields are all
digits, it recomputes the two check digits and reports the branch-check-digit
error first and the account-check-digit error second (the first failing digit
determines the error), returning the validated string on success.  (When a
branch or account character is not a digit, the recomputation instead raises
an untyped `ValueError` — see the counterexample.) -/
theorem C6_validate_order (s : String) :
    (s.length ≠ 20 → BBAN.validate s = .error .bbanInvalidLength) ∧
    (s.length = 20 → pySlice s 0 4 ∉ BANKS → BBAN.validate s = .error .bbanInvalidBankCode) ∧
    (s.length = 20 → pySlice s 0 4 ∈ BANKS →
      (pySlice s 4 8).data.all isDigitChar = true →
      (pyDrop s 10).data.all isDigitChar = true →
      ∃ d1 d2,
        BBAN.firstCheckDigit (pySlice s 0 4) (pySlice s 4 8) = .ok d1 ∧
        BBAN.secondCheckDigit (pyDrop s 10) = .ok d2 ∧
        BBAN.validate s =
          (if pySlice s 8 9 = d1 then
            (if pySlice s 9 10 = d2 then .ok s else .error .bbanInvalidAccountCheckDigit)
           else .error .bbanInvalidBankBranchCheckDigit)) := by
  refine ⟨?_, ?_, ?_⟩
  · intro h
    rw [str_length] at h
    unfold BBAN.validate
    rw [if_pos h]
  · intro h20 hbn
    rw [str_length] at h20
    unfold BBAN.validate
    rw [if_neg (show ¬s.data.length ≠ 20 by omega)]
    simp only []
    rw [if_pos hbn]
  · intro h20 hb hdbr hdacc
    rw [str_length] at h20
    have hbd : (pySlice s 0 4).data.all isDigitChar = true := banks_all_digits _ hb
    have hcat : (pySlice s 0 4 ++ pySlice s 4 8).data.all isDigitChar = true := by
      rw [strData_append, List.all_append, hbd, hdbr]
      rfl
    obtain ⟨d1, hd1⟩ : ∃ d1, BBAN.firstCheckDigit (pySlice s 0 4) (pySlice s 4 8) = .ok d1 :=
      ⟨_, firstCheckDigit_rem _ _ hcat⟩
    obtain ⟨d2, hd2⟩ : ∃ d2, BBAN.secondCheckDigit (pyDrop s 10) = .ok d2 :=
      ⟨_, secondCheckDigit_rem _ hdacc⟩
    refine ⟨d1, d2, hd1, hd2, ?_⟩
    unfold BBAN.validate
    rw [if_neg (show ¬s.data.length ≠ 20 by omega)]
    simp only [hd1, hd2]
    rw [if_neg (not_not_intro hb)]
    by_cases hc1 : pySlice s 8 9 = d1
    · rw [if_neg (not_not_intro hc1), if_pos hc1]
      by_cases hc2 : pySlice s 9 10 = d2
      · rw [if_neg (not_not_intro hc2), if_pos hc2]
      · rw [if_pos hc2, if_neg hc2]
    · rw [if_pos hc1, if_neg hc1]

theorem C6_witness :
    BBAN.validate "X" = .error .bbanInvalidLength ∧
    BBAN.validate "99990000000000000000" = .error .bbanInvalidBankCode ∧
    (∃ d1 d2,
      BBAN.firstCheckDigit (pySlice "14650000900000000000" 0 4)
        (pySlice "14650000900000000000" 4 8) = .ok d1 ∧
      BBAN.secondCheckDigit (pyDrop "14650000900000000000" 10) = .ok d2 ∧
      BBAN.validate "14650000900000000000" =
        (if pySlice "14650000900000000000" 8 9 = d1 then
          (if pySlice "14650000900000000000" 9 10 = d2 then .ok "14650000900000000000"
           else .error .bbanInvalidAccountCheckDigit)
         else .error .bbanInvalidBankBranchCheckDigit)) :=
  ⟨(C6_validate_order "X").1 (by decide),
   (C6_validate_order "99990000000000000000").2.1 (by decide) (by decide),
   (C6_validate_order "14650000900000000000").2.2 (by decide) (by decide) (by decide) (by decide)⟩

theorem subChar_error {c : Char} {e : Err} (h : subChar c = .error e) : e = .valueError := by
  unfold subChar at h
  split at h
  · exact absurd h (by simp)
  · split at h
    · exact (Except.error.injEq _ _ ▸ h).symm ▸ rfl
    · exact absurd h (by simp)

theorem substAll_error : ∀ {l : List Char} {e : Err}, substAll l = .error e → e = .valueError := by
  intro l
  induction l with
  | nil =>
    intro e h
    exact absurd h (by simp [substAll])
  | cons c t ih =>
    intro e h
    unfold substAll at h
    cases hc : subChar c with
    | error e' =>
      rw [hc] at h
      cases h
      exact subChar_error hc
    | ok u =>
      rw [hc] at h
      cases ht : substAll t with
      | error e' =>
        rw [ht] at h
        cases h
        exact ih ht
      | ok v =>
        rw [ht] at h
        exact absurd h (by simp)

theorem calcCheckDigit_error {s : String} {e : Err}
    (h : IBAN.calcCheckDigit s = .error e) : e = .valueError := by
  unfold IBAN.calcCheckDigit at h
  simp only [] at h
  cases hc : substAll ((pySlice s 4 8 ++ (pySlice s 0 2 ++ "00")).data) with
  | error e' =>
    rw [hc] at h
    simp only [Except.error.injEq] at h
    rw [← h]
    exact substAll_error hc
  | ok u =>
    rw [hc] at h
    simp only [] at h
    cases hi : pyInt u with
    | none =>
      rw [hi] at h
      simp only [Except.error.injEq] at h
      rw [← h]
    | some n =>
      rw [hi] at h
      simp at h

/-- C8 counterexample: a 24-character input whose first two characters are the
lowercase "es" does not equal "ES", yet `IBAN.validate` does not fail with the
country error (the comparison uppercases the input first; this input instead
dies later with a `ValueError` when the check-digit substitution meets the
lowercase letter). -/
theorem C8_counterexample :
    ("es0014650000000000000000" : String).length = 24 ∧
    pySlice "es0014650000000000000000" 0 2 ≠ "ES" ∧
    IBAN.validate "es0014650000000000000000" ≠ .error .ibanInvalidCountry := by
  decide

/-- C8 amended: for every 24-character input, `IBAN.validate` fails with the
country error if and only if the UPPERCASED first two characters differ from
"ES" — the check is case-insensitive, so an input beginning with lowercase
"es" does not produce the country error. -/
theorem C8_country_error_iff (s : String) (h24 : s.length = 24) :
    IBAN.validate s = .error .ibanInvalidCountry ↔ pyUpper (pySlice s 0 2) ≠ "ES" := by
  rw [str_length] at h24
  by_cases hup : pyUpper (pySlice s 0 2) = "ES"
  · refine iff_of_false ?_ (by simp [hup])
    unfold IBAN.validate
    rw [if_neg (show ¬s.data.length ≠ 24 by omega)]
    simp only []
    rw [if_neg (not_not_intro hup)]
    cases hc : IBAN.calcCheckDigit s with
    | error e =>
      have he : e = .valueError := calcCheckDigit_error hc
      subst he
      simp
    | ok real =>
      simp only []
      by_cases hcd : pySlice s 2 4 ≠ real
      · rw [if_pos hcd]
        simp
      · rw [if_neg hcd]
        by_cases hbk : pySlice s 4 8 ∉ BANKS
        · rw [if_pos hbk]
          simp
        · rw [if_neg hbk]
          simp
  · refine iff_of_true ?_ hup
    unfold IBAN.validate
    rw [if_neg (show ¬s.data.length ≠ 24 by omega)]
    simp only []
    rw [if_pos hup]

theorem C8_witness :
    IBAN.validate "QQ0014650000000000000000" = .error .ibanInvalidCountry ↔
      pyUpper (pySlice "QQ0014650000000000000000" 0 2) ≠ "ES" :=
  C8_country_error_iff "QQ0014650000000000000000" (by decide)

/-- C3 counterexample: a 24-character input with valid country, IBAN check
digit, length and bank code but a wrong BBAN branch check digit.  The static
`IBAN.validate` succeeds on it — it never consults `BBAN.validate` — even
though `BBAN.validate` rejects the trailing 20 characters. -/
theorem C3_counterexample :
    IBAN.validate "ES0614650000900000000000" = .ok "ES0614650000900000000000" ∧
    BBAN.validate (pyDrop "ES0614650000900000000000" 4) =
      .error .bbanInvalidBankBranchCheckDigit := by
  decide

/-- C3 amended: `IBAN.validate` itself checks only length, country (up-cased),
its own mod-97 check digit and bank-code membership; the delegation to
`BBAN.validate` happens in the constructor `IBAN.__init__`, which first runs
`IBAN.validate` and then builds `BBAN(number[4:])`.  So whenever
`IBAN.validate` accepts a string, constructing the IBAN object delegates the
trailing 20 characters to the BBAN constructor and propagates its result. -/
theorem C3_construct_delegates (s : String) (h : IBAN.validate s = .ok s) :
    IBAN.construct s =
      (BBAN.construct (pyDrop s 4)).map (fun b => IBANFields.mk (pySlice s 0 2) b) := by
  unfold IBAN.construct
  rw [h]
  cases hb : BBAN.construct (pyDrop s 4) <;> rfl

theorem C3_witness :
    IBAN.construct "ES0614650000900000000000" =
      (BBAN.construct (pyDrop "ES0614650000900000000000" 4)).map
        (fun b => IBANFields.mk (pySlice "ES0614650000900000000000" 0 2) b) :=
  C3_construct_delegates "ES0614650000900000000000" (by decide)

theorem strAppend_assoc (a b c : String) : a ++ b ++ c = a ++ (b ++ c) := by
  show (⟨(a ++ b).data ++ c.data⟩ : String) = ⟨a.data ++ (b ++ c).data⟩
  rw [strData_append, strData_append, List.append_assoc]

theorem subChar_digit {c : Char} (h : isDigitChar c = true) :
    subChar c = .ok (⟨[c]⟩ : String) := by
  unfold isDigitChar at h
  simp only [Bool.and_eq_true, decide_eq_true_eq] at h
  unfold subChar
  rw [if_neg (by omega), if_neg (by omega)]

theorem substAll_digits : ∀ {l : List Char}, l.all isDigitChar = true →
    substAll l = .ok (⟨l⟩ : String) := by
  intro l
  induction l with
  | nil => intro _; rfl
  | cons c t ih =>
    intro h
    simp only [List.all_cons, Bool.and_eq_true] at h
    unfold substAll
    rw [subChar_digit h.1, ih h.2]
    rfl

theorem substAll_append {l₁ l₂ : List Char} {s₁ s₂ : String}
    (h₁ : substAll l₁ = .ok s₁) (h₂ : substAll l₂ = .ok s₂) :
    substAll (l₁ ++ l₂) = .ok (s₁ ++ s₂) := by
  induction l₁ generalizing s₁ with
  | nil =>
    simp only [substAll] at h₁
    cases h₁
    rw [List.nil_append, h₂]
    rfl
  | cons c t ih =>
    unfold substAll at h₁
    cases hc : subChar c with
    | error e =>
      rw [hc] at h₁
      exact absurd h₁ (by simp)
    | ok u =>
      rw [hc] at h₁
      cases ht : substAll t with
      | error e =>
        rw [ht] at h₁
        exact absurd h₁ (by simp)
      | ok v =>
        rw [ht] at h₁
        simp only [Except.ok.injEq] at h₁
        rw [List.cons_append]
        unfold substAll
        rw [hc, ih ht]
        simp only []
        rw [← h₁, strAppend_assoc]

/-- C1 counterexample: on a concrete 24-character candidate the check digit the
code computes differs from the ISO value described by the claim (the code reads
only `number[4:8]`, the bank code, where the ISO rule uses the whole
20-character BBAN). -/
theorem C1_counterexample :
    IBAN.calcCheckDigit "ES0014650000500000000001" ≠
      .ok (specIsoCheckDigit "ES0014650000500000000001") := by
  decide

/-- C1 amended: the check digit `IBAN._calc_check_digit` computes is the
mod-97 formula applied to the four bank-code characters followed by
country+"00" only — for a candidate with country "ES" and an all-digit bank
code the result is `zfill 2 (str (98 - (bank·10^6 + 142800) mod 97))`, where
142800 is the substitution of "ES00"; the branch, BBAN check digits and
account number do not enter the computation. -/
theorem C1_bank_only_formula (s : String) (hc : pySlice s 0 2 = "ES")
    (hb : (pySlice s 4 8).data.all isDigitChar = true) :
    IBAN.calcCheckDigit s =
      .ok (zfill 2 (pyStr (98 - (strVal (pySlice s 4 8) * 10 ^ 6 + 142800) % 97))) := by
  have h4 : substAll (("ES" ++ "00" : String)).data = .ok "142800" := rfl
  have hsub : substAll ((pySlice s 4 8 ++ ("ES" ++ "00" : String)).data) =
      .ok (pySlice s 4 8 ++ "142800") := by
    rw [strData_append]
    exact substAll_append (substAll_digits hb) h4
  have hval : strVal (pySlice s 4 8 ++ ("142800" : String)) =
      strVal (pySlice s 4 8) * 10 ^ 6 + 142800 := by
    unfold strVal
    rw [strData_append, foldVal_append,
        foldVal_shift (("142800" : String)).data (foldVal 0 (pySlice s 4 8).data)]
    rfl
  have hcond : ((pySlice s 4 8 ++ ("142800" : String)).data.isEmpty ||
      !(pySlice s 4 8 ++ ("142800" : String)).data.all isDigitChar) = false := by
    rw [strData_append, List.all_append]
    simp [hb]
    decide
  have hpy : pyInt (pySlice s 4 8 ++ ("142800" : String)) =
      some (strVal (pySlice s 4 8) * 10 ^ 6 + 142800) := by
    unfold pyInt
    rw [if_neg (by rw [hcond]; simp), hval]
  show (match substAll ((pySlice s 4 8 ++ (pySlice s 0 2 ++ "00")).data) with
    | Except.error e => Except.error e
    | Except.ok new_number =>
      match pyInt new_number with
      | none => Except.error Err.valueError
      | some n => Except.ok (zfill 2 (pyStr (98 - n % 97)))) = _
  rw [hc, hsub]
  simp only []
  rw [hpy]

theorem C1_witness :
    IBAN.calcCheckDigit "ES0614650000500000000000" =
      .ok (zfill 2 (pyStr (98 -
        (strVal (pySlice "ES0614650000500000000000" 4 8) * 10 ^ 6 + 142800) % 97))) :=
  C1_bank_only_formula "ES0614650000500000000000" (by decide) (by decide)

/-- C10: the computed IBAN check digit depends only on characters 0-1 (the
country code) and characters 4-7 (the bank code) of the candidate: any two
24-character inputs that agree there get the identical result — branch, BBAN
check digits and account number never influence it. -/
theorem C10_check_digit_ignores_tail (s t : String)
    (hs : s.length = 24) (ht : t.length = 24)
    (h02 : pySlice s 0 2 = pySlice t 0 2) (h48 : pySlice s 4 8 = pySlice t 4 8) :
    IBAN.calcCheckDigit s = IBAN.calcCheckDigit t := by
  simp only [IBAN.calcCheckDigit, h02, h48]

theorem C10_witness :
    IBAN.calcCheckDigit "ES0014650000000000000000" =
      IBAN.calcCheckDigit "ES9914651111222233334444" :=
  C10_check_digit_ignores_tail "ES0014650000000000000000" "ES9914651111222233334444"
    (by decide) (by decide) (by decide) (by decide)
